import Mathlib

/-!
Verification development for the rental-agent conversation engine
(`src/agent/graph.py`, `src/agent/nodes.py`, `src/services/pricing_service.py`,
`src/services/equipment_service.py`, `src/services/conversation_service.py`,
`src/utils/validators.py`).

The Python code is shallowly embedded: plain dataclasses become Lean
structures, dict-shaped state becomes an association list over a universe of
Python values, floats become rationals, and fallible operations return
`Option`/`Except`.  External collaborators (the LLM completion call, the
database-backed catalog query, wall-clock reads) are passed in as explicit
function or value parameters, exactly at the call sites where the Python code
performs the external call.
-/

namespace RentalAgent

/-! ## Python-string primitives

Helpers mirroring the Python string operations used by the source:
substring containment (the `in` operator), digit runs, and decimal parsing.
-/

/-- `listHasPre n h`: the list `n` is an initial segment of `h`. -/
def listHasPre : List Char → List Char → Bool
  | [], _ => true
  | _ :: _, [] => false
  | a :: as, b :: bs => a = b && listHasPre as bs

/-- `listHasSub n h`: the list `n` occurs contiguously inside `h`
(Python `n in h` on strings, modelled on the character lists). -/
def listHasSub (n : List Char) : List Char → Bool
  | [] => n.isEmpty
  | b :: bs => listHasPre n (b :: bs) || listHasSub n bs

/-- Python `needle in hay` for strings. -/
def strContains (hay needle : String) : Bool :=
  listHasSub needle.data hay.data

/-- Python truthiness of an optional string (`if extracted_value:`):
`None` and the empty string are falsy. -/
def optStrTruthy : Option String → Bool
  | none => false
  | some s => !s.isEmpty

/-- Python truthiness of an optional number (`if equipment.monthly_rate:`):
`None` and `0.0` are falsy. -/
def optRatTruthy : Option ℚ → Bool
  | none => false
  | some q => q ≠ 0

/-- The leading value of the first maximal digit run of a string:
`re.search(r"\d+", s)` followed by `int(...)`. -/
def firstDigitRun (s : String) : Option ℕ :=
  let rest := s.data.dropWhile (fun c => !c.isDigit)
  let run := rest.takeWhile Char.isDigit
  if run.isEmpty then none
  else some (run.foldl (fun n c => 10 * n + (c.toNat - 48)) 0)

/-- The `\\s` regex class and the `str.strip` whitespace set (ASCII
portion; the unicode spaces Python also accepts do not occur here). -/
def pyIsSpace (c : Char) : Bool :=
  c = ' ' || c = '\t' || c = '\n' || c = '\x0d' || c = '\x0b' || c = '\x0c'

/-- Python `str.strip()`. -/
def pyStrip (s : String) : String :=
  String.mk (((s.data.dropWhile pyIsSpace).reverse.dropWhile pyIsSpace).reverse)

/-- Python `str.lower()` (ASCII case mapping; the accented characters this
code base compares are already lower-case). -/
def pyLower (s : String) : String := String.mk (s.data.map Char.toLower)

/-- Python `float(s)` restricted to plain decimal literals
(optional sign, digits around an optional single dot, surrounding blanks);
exponent, underscore, `inf` and `nan` forms do not occur in this code base
and are modelled as parse failures. -/
def pyFloat (s : String) : Option ℚ :=
  let t := (pyStrip s).data
  let (sign, u) : ℚ × List Char :=
    match t with
    | '-' :: r => (-1, r)
    | '+' :: r => (1, r)
    | r => (1, r)
  let intPart := u.takeWhile Char.isDigit
  let rest := u.dropWhile Char.isDigit
  match rest with
  | [] =>
      if intPart.isEmpty then none
      else some (sign * (intPart.foldl (fun n c => 10 * n + (c.toNat - 48)) 0 : ℕ))
  | '.' :: frac =>
      if frac.all Char.isDigit ∧ ¬(intPart.isEmpty ∧ frac.isEmpty) then
        let ip : ℕ := intPart.foldl (fun n c => 10 * n + (c.toNat - 48)) 0
        let fp : ℕ := frac.foldl (fun n c => 10 * n + (c.toNat - 48)) 0
        some (sign * ((ip : ℚ) + (fp : ℚ) / ((10 : ℚ) ^ frac.length)))
      else none
  | _ => none

/-- `round(x, 2)` from `pricing_service.py`, on the rational model of floats.
(Binary-float tie-breaking artifacts are immaterial to the stated claims.) -/
def round2 (x : ℚ) : ℚ := (round (x * 100) : ℤ) / 100

/-! ## `datetime` and its ISO-8601 encoding

`conversation_service.py` serializes `created_at`/`updated_at` with
`datetime.isoformat()` and parses them back with `datetime.fromisoformat()`.
We model a `datetime` by its calendar fields and implement the
`YYYY-MM-DDTHH:MM:SS[.ffffff]` encoding that `isoformat()` produces
(the fraction is omitted exactly when `microsecond == 0`); `fromisoformat`
is modelled on those same shapes, which are the only ones this code writes. -/

structure PyDateTime where
  year : ℕ
  month : ℕ
  day : ℕ
  hour : ℕ
  minute : ℕ
  second : ℕ
  microsecond : ℕ
deriving DecidableEq

/-- The field ranges `datetime` itself enforces. -/
def PyDateTime.Valid (d : PyDateTime) : Prop :=
  d.year < 10000 ∧ 1 ≤ d.month ∧ d.month ≤ 12 ∧ 1 ≤ d.day ∧ d.day ≤ 31 ∧
  d.hour < 24 ∧ d.minute < 60 ∧ d.second < 60 ∧ d.microsecond < 1000000

instance (d : PyDateTime) : Decidable d.Valid := by
  unfold PyDateTime.Valid; infer_instance

/-- The decimal digit character for `n < 10`. -/
def digitChar (n : ℕ) : Char := Char.ofNat (48 + n)

/-- Two-digit zero-padded block (`%02d`), for `n < 100`. -/
def pad2 (n : ℕ) : List Char := [digitChar (n / 10), digitChar (n % 10)]

/-- Read a two-digit block back. -/
def parse2 (a b : Char) : ℕ := 10 * (a.toNat - 48) + (b.toNat - 48)

/-- `isoformat()` output as a character list, written as two-digit blocks.
Year is the blocks `year / 100` and `year % 100` (zero-padded to 4 digits). -/
def isoChars (d : PyDateTime) : List Char :=
  pad2 (d.year / 100) ++ (pad2 (d.year % 100) ++ '-' ::
    (pad2 d.month ++ '-' :: (pad2 d.day ++ 'T' ::
      (pad2 d.hour ++ ':' :: (pad2 d.minute ++ ':' ::
        (pad2 d.second ++
          (if d.microsecond = 0 then []
           else '.' :: (pad2 (d.microsecond / 10000) ++
             (pad2 (d.microsecond / 100 % 100) ++ pad2 (d.microsecond % 100))))))))))

/-- `datetime.isoformat()`. -/
def isoformat (d : PyDateTime) : String := String.mk (isoChars d)

/-- Consume one two-digit block. -/
def take2 : List Char → Option (ℕ × List Char)
  | a :: b :: rest => some (parse2 a b, rest)
  | _ => none

/-- Consume one expected separator character. -/
def expectChar (c : Char) : List Char → Option (List Char)
  | x :: rest => if x = c then some rest else none
  | [] => none

/-- The optional `.ffffff` microsecond tail of an ISO timestamp:
absent means zero microseconds. -/
def parseUsecTail : List Char → Option ℕ
  | [] => some 0
  | '.' :: r =>
      (take2 r).bind fun u1 =>
      (take2 u1.2).bind fun u2 =>
      (take2 u2.2).bind fun u3 =>
      if u3.2.isEmpty then some (u1.1 * 10000 + u2.1 * 100 + u3.1) else none
  | _ => none

/-- `datetime.fromisoformat` on the shapes produced by `isoformat`
(other accepted input shapes of the Python function are not exercised by
this code base and are modelled as parse failures). -/
def fromisoChars (l : List Char) : Option PyDateTime :=
  (take2 l).bind fun a =>
  (take2 a.2).bind fun b =>
  (expectChar '-' b.2).bind fun l1 =>
  (take2 l1).bind fun c =>
  (expectChar '-' c.2).bind fun l2 =>
  (take2 l2).bind fun dd =>
  (expectChar 'T' dd.2).bind fun l3 =>
  (take2 l3).bind fun e =>
  (expectChar ':' e.2).bind fun l4 =>
  (take2 l4).bind fun f =>
  (expectChar ':' f.2).bind fun l5 =>
  (take2 l5).bind fun g =>
  (parseUsecTail g.2).map fun us =>
  ⟨a.1 * 100 + b.1, c.1, dd.1, e.1, f.1, g.1, us⟩

/-- `datetime.fromisoformat`. -/
def fromisoformat (s : String) : Option PyDateTime := fromisoChars s.data

/-! ## Python values and the dict-shaped agent state

`RentalAgentState` is a `TypedDict`: at the boundary where
`graph.py` validates it and `conversation_service.py` serializes it, the
state is handled as a plain dictionary.  We embed that view as an
association list over a universe of Python runtime values.  `obj cls attrs`
is a class instance (a dataclass such as `ClientInfo`) whose `__dict__` is
`attrs`; `dict` is a plain dictionary (also a `TypedDict` instance). -/

inductive PyVal where
  | none : PyVal
  | str (s : String) : PyVal
  | int (n : ℤ) : PyVal
  | float (q : ℚ) : PyVal
  | bool (b : Bool) : PyVal
  | dt (d : PyDateTime) : PyVal
  | list (xs : List PyVal) : PyVal
  | dict (kvs : List (String × PyVal)) : PyVal
  | obj (cls : String) (attrs : List (String × PyVal)) : PyVal

/-- The dict view of a `RentalAgentState`. -/
abbrev StateDict := List (String × PyVal)

/-- Python `state[k]` / `state.get(k)`: the value stored under a key. -/
def pyLookup : StateDict → String → Option PyVal
  | [], _ => Option.none
  | (k2, v) :: rest, k => if k2 = k then some v else pyLookup rest k

/-- Python `k in state`. -/
def hasKey (s : StateDict) (k : String) : Bool := (pyLookup s k).isSome

/-- Python `state[k] = v`: update the key in place, or append it. -/
def pySet : StateDict → String → PyVal → StateDict
  | [], k, v => [(k, v)]
  | (k2, v2) :: rest, k, v =>
      if k2 = k then (k2, v) :: rest else (k2, v2) :: pySet rest k v

/-- Python `state[k] is None` (false when the key is absent,
matching the short-circuit `"k" not in state or state[k] is None`). -/
def isNoneValue : Option PyVal → Bool
  | some PyVal.none => true
  | _ => false

/-! ## `RentalAgentGraph._validate_state` and `process_message`
(`src/agent/graph.py` lines 210–274)

`graph.invoke` runs the compiled node graph; its nodes call the LLM and the
database, so the whole turn execution is taken as a parameter
`invoke : StateDict → Except String StateDict`, an exception being the
`error` case (carrying `str(e)`).  `process_message` itself is total: the
`except` branch converts the exception into state fields, it never
re-raises. -/

/-- `_validate_state`: the three required fields are checked for presence
only; `project_details` and `client_info` are additionally checked to be
non-`None`.  (The `try`/`except` around the body can only return `False`
for errors that the total model cannot produce.) -/
def validate_state (state : StateDict) : Bool :=
  hasKey state "conversation_stage" &&
  hasKey state "conversation_history" &&
  hasKey state "last_message" &&
  (hasKey state "project_details" && !isNoneValue (pyLookup state "project_details")) &&
  (hasKey state "client_info" && !isNoneValue (pyLookup state "client_info"))

/-- `process_message`: validate, then run the graph; on a validation
failure return the state with only `needs_human_intervention` and
`escalation_reason` set; on an exception inside the turn return the state
with the four-field escalation fallback applied. -/
def process_message (invoke : StateDict → Except String StateDict)
    (state : StateDict) : StateDict :=
  if validate_state state = false then
    pySet (pySet state "needs_human_intervention" (PyVal.bool true))
      "escalation_reason" (PyVal.str "Invalid state structure")
  else
    match invoke state with
    | Except.ok result => result
    | Except.error e =>
        pySet (pySet (pySet (pySet state
          "needs_human_intervention" (PyVal.bool true))
          "escalation_reason" (PyVal.str ("Technical error: " ++ e)))
          "conversation_stage" (PyVal.str "escalated"))
          "next_action" (PyVal.str "end")

/-! ## `ConversationService._serialize_state` / `_deserialize_state`
(`src/services/conversation_service.py` lines 210–259)

`_serialize_state` walks the state items: an object with a `__dict__` is
replaced by that (shallow) `__dict__`; a `datetime` by its ISO string; a
list by its items with objects likewise replaced; anything else is kept.
`_deserialize_state` rebuilds by key: the two date keys are parsed back,
the three dataclass keys and `equipment_needs` items are reconstructed via
their `**kwargs` constructors, `conversation_history` items go through the
`ConversationMessage` `TypedDict` constructor (which returns an equal
dict); every other key — `pricing_info` included — is kept as-is. -/

/-- One list element under serialization:
`item.__dict__ if hasattr(item, "__dict__") else item`. -/
def serItem : PyVal → PyVal
  | PyVal.obj _ a => PyVal.dict a
  | v => v

/-- One top-level value under serialization. -/
def serTop : PyVal → PyVal
  | PyVal.obj _ a => PyVal.dict a
  | PyVal.dt d => PyVal.str (isoformat d)
  | PyVal.list xs => PyVal.list (xs.map serItem)
  | v => v

/-- `_serialize_state`. -/
def serialize_state (state : StateDict) : StateDict :=
  state.map fun kv => (kv.1, serTop kv.2)

/-- One `equipment_needs` item under deserialization:
`EquipmentNeed(**item)`.  (A non-dict item would raise `TypeError` in
Python; it cannot arise from a serialized state and is kept unchanged.) -/
def deNeedItem : PyVal → PyVal
  | PyVal.dict a => PyVal.obj "EquipmentNeed" a
  | v => v

/-- One `conversation_history` item under deserialization:
`ConversationMessage(**item)` — a `TypedDict` constructor, returning an
equal plain dict. -/
def deMsgItem : PyVal → PyVal
  | PyVal.dict a => PyVal.dict a
  | v => v

/-- One top-level value under deserialization, dispatched on its key.
A date string that `fromisoformat` rejects would raise `ValueError` in
Python; it cannot arise from a serialized state and is kept unchanged. -/
def deTop (k : String) (v : PyVal) : PyVal :=
  if k = "created_at" ∨ k = "updated_at" then
    match v with
    | PyVal.str s =>
        (match fromisoformat s with
         | some d => PyVal.dt d
         | Option.none => PyVal.str s)
    | v => v
  else if k = "client_info" then
    match v with
    | PyVal.dict a => PyVal.obj "ClientInfo" a
    | v => v
  else if k = "project_details" then
    match v with
    | PyVal.dict a => PyVal.obj "ProjectDetails" a
    | v => v
  else if k = "site_conditions" then
    match v with
    | PyVal.dict a => PyVal.obj "SiteConditions" a
    | v => v
  else if k = "equipment_needs" then
    match v with
    | PyVal.list xs => PyVal.list (xs.map deNeedItem)
    | v => v
  else if k = "conversation_history" then
    match v with
    | PyVal.list xs => PyVal.list (xs.map deMsgItem)
    | v => v
  else v

/-- `_deserialize_state`. -/
def deserialize_state (state : StateDict) : StateDict :=
  state.map fun kv => (kv.1, deTop kv.1 kv.2)

/-- Values that both directions leave untouched: non-container,
non-object, non-datetime runtime values. -/
def isAtomic : PyVal → Bool
  | PyVal.none | PyVal.str _ | PyVal.int _ | PyVal.float _ | PyVal.bool _ => true
  | _ => false

/-- Plain-dict test. -/
def isDictVal : PyVal → Bool
  | PyVal.dict _ => true
  | _ => false

/-- Well-formedness of one state entry, as the running system produces it:
the date keys hold in-range `datetime`s, the dataclass keys hold instances
of their classes, `equipment_needs` holds `EquipmentNeed` instances,
`conversation_history` holds plain message dicts, `pricing_info` holds a
`PricingInfo` instance, and every other key holds an atomic value, a plain
dict, or a list of such. -/
def wfEntry (k : String) (v : PyVal) : Bool :=
  if k = "created_at" ∨ k = "updated_at" then
    match v with
    | PyVal.dt d => decide d.Valid
    | _ => false
  else if k = "client_info" then
    match v with
    | PyVal.obj c _ => c = "ClientInfo"
    | _ => false
  else if k = "project_details" then
    match v with
    | PyVal.obj c _ => c = "ProjectDetails"
    | _ => false
  else if k = "site_conditions" then
    match v with
    | PyVal.obj c _ => c = "SiteConditions"
    | _ => false
  else if k = "equipment_needs" then
    match v with
    | PyVal.list xs => xs.all fun x =>
        match x with
        | PyVal.obj c _ => c = "EquipmentNeed"
        | _ => false
    | _ => false
  else if k = "conversation_history" then
    match v with
    | PyVal.list xs => xs.all isDictVal
    | _ => false
  else if k = "pricing_info" then
    match v with
    | PyVal.obj c _ => c = "PricingInfo"
    | _ => false
  else
    isAtomic v || isDictVal v ||
      (match v with
       | PyVal.list xs => xs.all fun x => isAtomic x || isDictVal x
       | _ => false)

/-- What the round trip actually does to the `pricing_info` entry:
the `PricingInfo` instance is flattened to its `__dict__` and never
reconstructed. -/
def stripToDict : PyVal → PyVal
  | PyVal.obj _ a => PyVal.dict a
  | v => v

/-! ## Typed state records (`src/agent/state.py`)

The dataclasses of `state.py`, with Python floats as rationals and
`Optional[...]` as `Option`. -/

structure ClientInfo where
  name : Option String := Option.none
  phone : Option String := Option.none
  email : Option String := Option.none
  company : Option String := Option.none
  contact_preference : Option String := Option.none
deriving DecidableEq

structure ProjectDetails where
  project_type : Option String := Option.none
  location : Option String := Option.none
  address : Option String := Option.none
  duration_days : Option ℤ := Option.none
  start_date : Option PyDateTime := Option.none
  end_date : Option PyDateTime := Option.none
  description : Option String := Option.none
deriving DecidableEq

structure EquipmentNeed where
  equipment_type : Option String := Option.none
  height_needed : Option ℚ := Option.none
  capacity_needed : Option ℚ := Option.none
  quantity : Option ℤ := Option.none
  specific_requirements : List String := []
deriving DecidableEq

structure SiteConditions where
  surface_type : Option String := Option.none
  access_width : Option ℚ := Option.none
  access_restrictions : List String := []
  power_available : Option Bool := Option.none
  obstacles : List String := []
deriving DecidableEq

structure PricingInfo where
  equipment_subtotal : ℚ := 0
  delivery_cost : ℚ := 0
  setup_cost : ℚ := 0
  insurance_cost : ℚ := 0
  tax_amount : ℚ := 0
  total_amount : ℚ := 0
  currency : String := "USD"
  valid_until : Option PyDateTime := Option.none
deriving DecidableEq

/-- `ConversationMessage` (`TypedDict`). -/
structure ConversationMessage where
  role : String
  content : String
  timestamp : PyDateTime
  message_type : Option String
deriving DecidableEq

/-- A catalog row (`src/database/models.py`, the columns the services
read); nullable rate columns are `Option`. -/
structure Equipment where
  id : String
  name : String
  equipment_type : String
  max_height : ℚ
  max_capacity : ℚ
  daily_rate : ℚ
  weekly_rate : Option ℚ
  monthly_rate : Option ℚ
  platform_size : Option String
  description : Option String
  is_available : Bool
  quantity_available : ℤ
deriving DecidableEq

/-- The recommendation dict built by
`EquipmentService.get_recommendations` and consumed by the node layer and
the pricing engine.  Every key the dict carries is a structure field, so
`item.get(k, default)` is plain field access. -/
structure Recommendation where
  id : String
  name : String
  equipment_type : String
  max_height : ℚ
  max_capacity : ℚ
  daily_rate : ℚ
  weekly_rate : Option ℚ
  monthly_rate : Option ℚ
  platform_size : Option String
  description : Option String
  quantity : ℤ
  subtotal : ℚ
  suitability_score : ℚ
deriving DecidableEq

/-! ## Pricing engine (`src/services/pricing_service.py`)

`PricingService.__init__` copies three values from `config/settings.py`;
they are the literal defaults below.  `valid_until` is
`datetime.now() + timedelta(days=7)` — wall clock plus calendar
arithmetic, supplied by the environment, so it is a parameter. -/

def base_delivery_cost : ℚ := 50
def cost_per_km : ℚ := 5 / 2
def weekend_surcharge : ℚ := 6 / 5

/-- `_calculate_delivery_cost`.  `if not location` covers both `None` and
the empty string. -/
def calculate_delivery_cost (location : Option String) : ℚ :=
  match location with
  | Option.none => base_delivery_cost
  | some l =>
      if l.isEmpty then base_delivery_cost
      else
        let ll := pyLower l
        let zone_cost : ℚ :=
          if ["centro", "downtown", "bogotá centro"].any (fun c => strContains ll c) then 0
          else if ["norte", "sur", "chapinero", "zona rosa"].any (fun c => strContains ll c) then 25
          else 50
        base_delivery_cost + zone_cost

/-- The per-unit installation rate table of `_calculate_setup_cost`. -/
def setupRate (equipment_type : String) : ℚ :=
  if equipment_type = "andamio" then 100
  else if equipment_type = "plataforma_elevadora" then 150
  else if equipment_type = "escalera" then 50
  else if equipment_type = "grua" then 300
  else if equipment_type = "montacargas" then 200
  else 75

/-- `_calculate_setup_cost`. -/
def calculate_setup_cost (selected_equipment : List Recommendation) : ℚ :=
  selected_equipment.foldl
    (fun acc e => acc + setupRate e.equipment_type * (e.quantity : ℚ)) 0

/-- `_calculate_insurance_cost`: 5% of the equipment subtotal. -/
def calculate_insurance_cost (equipment_subtotal : ℚ) : ℚ :=
  equipment_subtotal * (5 / 100)

/-- `_calculate_taxes`: 19% IVA. -/
def calculate_taxes (subtotal : ℚ) : ℚ :=
  subtotal * (19 / 100)

/-- `datetime.weekday()` (Monday = 0 … Sunday = 6), via the Gregorian
day-of-week congruence. -/
def pyWeekday (d : PyDateTime) : ℕ :=
  let y := if d.month ≤ 2 then d.year - 1 else d.year
  let m := if d.month ≤ 2 then d.month + 12 else d.month
  let j := y / 100
  let k := y % 100
  -- Zeller: 0 = Saturday, 1 = Sunday, 2 = Monday, …
  let h := (d.day + (13 * (m + 1)) / 5 + k + k / 4 + j / 4 + 5 * j) % 7
  (h + 5) % 7

/-- `_get_date_surcharge_multiplier`: 1.2 when the start date is a
Saturday or Sunday, 1.0 otherwise (and when no start date is set). -/
def get_date_surcharge_multiplier (start_date : Option PyDateTime) : ℚ :=
  match start_date with
  | Option.none => 1
  | some d => if 5 ≤ pyWeekday d then weekend_surcharge else 1

/-- `PricingService.calculate_quote`. -/
def calculate_quote (selected_equipment : List Recommendation)
    (project_details : ProjectDetails) (valid_until : PyDateTime) : PricingInfo :=
  let equipment_subtotal := (selected_equipment.map Recommendation.subtotal).sum
  let delivery_cost := calculate_delivery_cost project_details.location
  let setup_cost := calculate_setup_cost selected_equipment
  let insurance_cost := calculate_insurance_cost equipment_subtotal
  let tax_amount := calculate_taxes (equipment_subtotal + delivery_cost + setup_cost)
  let total_before_surcharge :=
    equipment_subtotal + delivery_cost + setup_cost + insurance_cost + tax_amount
  let surcharge_multiplier := get_date_surcharge_multiplier project_details.start_date
  let total_amount := total_before_surcharge * surcharge_multiplier
  { equipment_subtotal := round2 equipment_subtotal
    delivery_cost := round2 delivery_cost
    setup_cost := round2 setup_cost
    insurance_cost := round2 insurance_cost
    tax_amount := round2 tax_amount
    total_amount := round2 total_amount
    currency := "USD"
    valid_until := some valid_until }

/-! ## Equipment subtotal (`src/services/equipment_service.py` lines 93–111) -/

/-- `EquipmentService._calculate_equipment_subtotal`: pick the monthly
rate scaled by `duration_days / 30` months when the duration is at least
30 days and a (truthy) monthly rate exists, else the weekly rate scaled by
`duration_days / 7` weeks when at least 7 days and a weekly rate exists,
else the daily rate times the days; multiply the chosen rate amount by the
quantity.  `duration_days / 30` is Python true division. -/
def calculate_equipment_subtotal (equipment : Equipment)
    (duration_days : ℤ) (quantity : ℤ) : ℚ :=
  let rate : ℚ :=
    if 30 ≤ duration_days ∧ optRatTruthy equipment.monthly_rate then
      (equipment.monthly_rate.getD 0) * ((duration_days : ℚ) / 30)
    else if 7 ≤ duration_days ∧ optRatTruthy equipment.weekly_rate then
      (equipment.weekly_rate.getD 0) * ((duration_days : ℚ) / 7)
    else
      equipment.daily_rate * (duration_days : ℚ)
  rate * (quantity : ℚ)

/-! ## Validators (`src/utils/validators.py`)

Each validator returns `ok true` or raises `ValidationError(msg)`,
embedded as `Except String Bool`.  The `isinstance` guards always pass for
the typed model inputs.  Interpolated numbers in error messages are
rendered with `pyRatStr` (plain decimal rendering; binary-float repr
subtleties do not arise for the catalog constants). -/

/-- Python `str(...)` on the numbers interpolated into validator
messages. -/
def pyRatStr (q : ℚ) : String :=
  if q.den = 1 then toString q.num else toString q

/-- `ProjectValidator.validate_height`. -/
def validate_height (height : ℚ) : Except String Bool :=
  if height < 2 then Except.error "La altura mínima es 2 metros"
  else if height > 50 then Except.error "La altura máxima es 50 metros"
  else Except.ok true

/-- `ProjectValidator.validate_capacity`. -/
def validate_capacity (capacity : ℚ) : Except String Bool :=
  if capacity < 100 then Except.error "La capacidad mínima es 100 kg"
  else if capacity > 2000 then Except.error "La capacidad máxima es 2000 kg"
  else Except.ok true

/-- `BUSINESS_RULES` entries used by the validators
(`src/utils/constants.py`). -/
def minimum_rental_days : ℤ := 1

def maximum_rental_days : ℤ := 365

/-- `ProjectValidator.validate_duration`. -/
def validate_duration (duration_days : ℤ) : Except String Bool :=
  if duration_days < minimum_rental_days then
    Except.error ("La duración mínima es " ++ toString minimum_rental_days ++ " días")
  else if duration_days > maximum_rental_days then
    Except.error ("La duración máxima es " ++ toString maximum_rental_days ++ " días")
  else Except.ok true

/-- The character class of `^[\d\s\-_.,]+$`. -/
def isLocationJunkChar (c : Char) : Bool :=
  c.isDigit || pyIsSpace c || c = '-' || c = '_' || c = '.' || c = ','

/-- `ProjectValidator.validate_location`. -/
def validate_location (location : String) : Except String Bool :=
  if location.isEmpty || ((pyStrip location).length < 3) then
    Except.error "La ubicación debe tener al menos 3 caracteres"
  else if location.length > 200 then
    Except.error "La ubicación es muy larga (máximo 200 caracteres)"
  else if !(pyStrip location).isEmpty && (pyStrip location).data.all isLocationJunkChar then
    Except.error "La ubicación debe incluir nombres de lugares"
  else Except.ok true

/-- A strictly monotone encoding of the calendar fields, giving the
`datetime` comparison order for in-range dates. -/
def dtKey (d : PyDateTime) : ℕ :=
  ((((((d.year * 13 + d.month) * 32 + d.day) * 24 + d.hour) * 60 + d.minute)
      * 60 + d.second) * 1000000 + d.microsecond)

/-- `datetime` `<`. -/
def pyDTLt (a b : PyDateTime) : Bool := dtKey a < dtKey b

/-- `ProjectValidator.validate_start_date`.  `datetime.now() -
timedelta(days=1)` and `datetime.now() + timedelta(days=365)` are wall
clock plus calendar arithmetic, supplied by the caller as `yesterday` and
`max_future_date`. -/
def validate_start_date (start_date yesterday max_future_date : PyDateTime) :
    Except String Bool :=
  if pyDTLt start_date yesterday then
    Except.error "La fecha de inicio no puede ser en el pasado"
  else if pyDTLt max_future_date start_date then
    Except.error "La fecha de inicio no puede ser más de 1 año en el futuro"
  else Except.ok true

/-- The characters stripped by `re.sub(r"[\s\-\(\)\+]", "", phone)`. -/
def isPhoneNoiseChar (c : Char) : Bool :=
  pyIsSpace c || c = '-' || c = '(' || c = ')' || c = '+'

/-- `ContactValidator.validate_phone`.  Note `"".isdigit()` is `False` in
Python, so an all-noise phone fails the digits check. -/
def validate_phone (phone : String) : Except String Bool :=
  if phone.isEmpty then Except.ok true
  else
    let clean_phone := phone.data.filter (fun c => !isPhoneNoiseChar c)
    if !(¬ clean_phone.isEmpty ∧ clean_phone.all Char.isDigit) then
      Except.error "El teléfono debe contener solo números"
    else if clean_phone.length < 7 ∨ clean_phone.length > 15 then
      Except.error "El teléfono debe tener entre 7 y 15 dígitos"
    else Except.ok true

/-- The local-part character class of the email pattern. -/
def isEmailLocalChar (c : Char) : Bool :=
  c.isAlpha || c.isDigit || c = '.' || c = '_' || c = '%' || c = '+' || c = '-'

/-- The domain character class of the email pattern. -/
def isEmailDomainChar (c : Char) : Bool :=
  c.isAlpha || c.isDigit || c = '.' || c = '-'

/-- `re.match(r"^[a-zA-Z0-9._%+-]+@[a-zA-Z0-9.-]+\.[a-zA-Z]{2,}$", email)`:
the local part runs to the first `@` (the local class excludes `@`), and
since the final alphabetic run cannot contain a dot, the `\.` of any match
is the last dot of the domain; the patterns match exactly when that
decomposition satisfies the classes. -/
def emailMatch (email : String) : Bool :=
  let l := email.data
  let locPart := l.takeWhile (fun c => c ≠ '@')
  match l.dropWhile (fun c => c ≠ '@') with
  | '@' :: domain =>
      let revD := domain.reverse
      let tld := (revD.takeWhile (fun c => c ≠ '.')).reverse
      (match revD.dropWhile (fun c => c ≠ '.') with
       | '.' :: revB =>
           let b := revB.reverse
           !locPart.isEmpty && locPart.all isEmailLocalChar &&
           !b.isEmpty && b.all isEmailDomainChar &&
           tld.all Char.isAlpha && decide (2 ≤ tld.length)
       | _ => false)
  | _ => false

/-- `ContactValidator.validate_email`. -/
def validate_email (email : String) : Except String Bool :=
  if email.isEmpty then Except.ok true
  else if !emailMatch email then
    Except.error "El formato del email no es válido"
  else if email.length > 100 then
    Except.error "El email es muy largo (máximo 100 caracteres)"
  else Except.ok true

/-- The character class of `^[a-zA-ZáéíóúñÁÉÍÓÚÑ\s\-\.]+$`. -/
def isNameChar (c : Char) : Bool :=
  c.isAlpha || c = 'á' || c = 'é' || c = 'í' || c = 'ó' || c = 'ú' || c = 'ñ' ||
  c = 'Á' || c = 'É' || c = 'Í' || c = 'Ó' || c = 'Ú' || c = 'Ñ' ||
  pyIsSpace c || c = '-' || c = '.'

/-- `ContactValidator.validate_name`. -/
def validate_name (name : String) : Except String Bool :=
  if name.isEmpty then Except.ok true
  else if (pyStrip name).length < 2 then
    Except.error "El nombre debe tener al menos 2 caracteres"
  else if name.length > 100 then
    Except.error "El nombre es muy largo (máximo 100 caracteres)"
  else if !(¬ name.data.isEmpty ∧ name.data.all isNameChar) then
    Except.error "El nombre contiene caracteres no válidos"
  else Except.ok true

/-- `EQUIPMENT_SPECS` ranges (`src/utils/constants.py`): height range and
capacity range per equipment type; `grua`/`montacargas` have no entry. -/
def equipmentSpecs (t : String) : Option ((ℚ × ℚ) × (ℚ × ℚ)) :=
  if t = "andamio" then some ((2, 50), (150, 500))
  else if t = "plataforma_elevadora" then some ((4, 30), (200, 1000))
  else if t = "escalera" then some ((2, 12), (120, 150))
  else Option.none

/-- `EquipmentValidator.validate_equipment_compatibility` (the
`surface_type` parameter is accepted and unused, as in the source). -/
def validate_equipment_compatibility (equipment_type : String)
    (height capacity : ℚ) (_surface_type : Option String := Option.none) :
    Except String Bool :=
  if equipment_type ∉ ["andamio", "plataforma_elevadora", "escalera", "grua", "montacargas"] then
    Except.error ("Tipo de equipo no válido: " ++ equipment_type)
  else
    match equipmentSpecs equipment_type with
    | Option.none => Except.ok true
    | some ((min_height, max_height), (min_capacity, max_capacity)) =>
        if height < min_height ∨ height > max_height then
          Except.error ("El " ++ equipment_type ++ " no puede alcanzar " ++
            pyRatStr height ++ "m (rango: " ++ pyRatStr min_height ++ "-" ++
            pyRatStr max_height ++ "m)")
        else if capacity < min_capacity ∨ capacity > max_capacity then
          Except.error ("El " ++ equipment_type ++ " no puede soportar " ++
            pyRatStr capacity ++ "kg (rango: " ++ pyRatStr min_capacity ++ "-" ++
            pyRatStr max_capacity ++ "kg)")
        else Except.ok true

/-- `BusinessRulesValidator.validate_delivery_location`. -/
def validate_delivery_location (location : String) : Except String Bool :=
  let ll := pyLower location
  if ["internacional", "extranjero", "exterior", "fuera del país"].any
      (fun k => strContains ll k) then
    Except.error "No prestamos servicio fuera del país"
  else Except.ok true

/-- The request dict passed to `validate_complete_request`: `"k" in
request_data` is `isSome` of the field. -/
structure RequestData where
  height : Option ℚ := Option.none
  capacity : Option ℚ := Option.none
  duration_days : Option ℤ := Option.none
  location : Option String := Option.none
  start_date : Option PyDateTime := Option.none
  phone : Option String := Option.none
  email : Option String := Option.none
  name : Option String := Option.none
  equipment_type : Option String := Option.none
  surface_type : Option String := Option.none

/-- `if "k" in request_data: Validator.validate_k(request_data["k"])`. -/
def checkOpt {α : Type} (o : Option α) (f : α → Except String Bool) :
    Except String Bool :=
  match o with
  | some x => f x
  | Option.none => Except.ok true

/-- The `try`/`except ValidationError` wrapper of
`validate_complete_request`: a caught error is appended to the (empty)
`errors` list.  (The generic `except Exception` branch is unreachable for
the total model.) -/
def caughtErrors : Except String Bool → List String
  | Except.ok _ => []
  | Except.error e => [e]

/-- `validate_complete_request`: all the per-field calls run inside one
`try`; the first `ValidationError` is caught and appended, so the returned
list never holds more than one message. -/
def validate_complete_request (request_data : RequestData)
    (yesterday max_future_date : PyDateTime) : List String :=
  let chain : Except String Bool :=
    (checkOpt request_data.height validate_height).bind fun _ =>
    (checkOpt request_data.capacity validate_capacity).bind fun _ =>
    (checkOpt request_data.duration_days validate_duration).bind fun _ =>
    (checkOpt request_data.location fun l =>
      (validate_location l).bind fun _ => validate_delivery_location l).bind fun _ =>
    (checkOpt request_data.start_date fun sd =>
      validate_start_date sd yesterday max_future_date).bind fun _ =>
    (checkOpt request_data.phone validate_phone).bind fun _ =>
    (checkOpt request_data.email validate_email).bind fun _ =>
    (checkOpt request_data.name validate_name).bind fun _ =>
    (match request_data.equipment_type, request_data.height, request_data.capacity with
     | some t, some h, some c =>
         validate_equipment_compatibility t h c request_data.surface_type
     | _, _, _ => Except.ok true)
  caughtErrors chain

/-! ## Node-level state (`src/agent/nodes.py`)

Inside the nodes the state is accessed through its `TypedDict` keys, which
are all present on any state built by `_create_initial_state`; the typed
view below therefore has one field per key.  `site_conditions` is checked
for truthiness (`if not state["site_conditions"]`), so it is optional;
dataclass instances are always truthy. -/

structure NState where
  user_id : String := ""
  chat_id : String := ""
  session_id : String := ""
  conversation_history : List ConversationMessage := []
  last_message : String := ""
  client_info : ClientInfo := {}
  project_details : ProjectDetails := {}
  equipment_needs : List EquipmentNeed := []
  site_conditions : Option SiteConditions := Option.none
  selected_equipment : List Recommendation := []
  pricing_info : Option PricingInfo := Option.none
  conversation_stage : String := "greeting"
  current_topic : Option String := Option.none
  pending_questions : List String := []
  missing_information : List String := []
  next_action : Option String := Option.none
  needs_human_intervention : Bool := false
  escalation_reason : Option String := Option.none
  created_at : PyDateTime := ⟨2024, 1, 1, 0, 0, 0, 0⟩
  updated_at : PyDateTime := ⟨2024, 1, 1, 0, 0, 0, 0⟩
  language : String := "es"
deriving DecidableEq

/-- `AgentNodes._add_message_to_history` (`datetime.now()` for the
timestamp is the `now` parameter). -/
def add_message_to_history (now : PyDateTime) (state : NState)
    (role content : String) : NState :=
  { state with conversation_history :=
      state.conversation_history ++ [⟨role, content, now, Option.none⟩] }

/-! ## Extraction engine (`src/agent/nodes.py` lines 74–166 and 309–342)

The LLM completion call `self.llm.invoke(...)` is the parameter
`llm : systemPrompt → userMessage → responseContent`.  `re.search` over
the fixed `EXTRACTION_PATTERNS` is the parameter
`research : pattern → message → Option (group0 × Option group1)`:
`none` when there is no match, otherwise the overall match text and the
first capture group. -/

/-- The system prompt of `_extract_with_llm` (f-string on the field name;
the few-shot examples of the original prompt text are abridged — the
prompt is only ever consumed by the opaque `llm` parameter). -/
def extraction_system_prompt (info_to_extract : String) : String :=
  "Eres un experto en extracción de información. Tu tarea es analizar el " ++
  "mensaje del usuario y extraer el valor para el siguiente campo: " ++
  info_to_extract ++
  ". Responde únicamente con el valor extraído. Si la información no está " ++
  "presente, responde exactamente con la palabra None."

/-- `_extract_with_llm`: strip the response; the literal `none`
(case-insensitive) or an empty response means "not found". -/
def extract_with_llm (llm : String → String → String)
    (info_to_extract last_message : String) : Option String :=
  let extracted_value := pyStrip (llm (extraction_system_prompt info_to_extract) last_message)
  if pyLower extracted_value = "none" ∨ extracted_value.length = 0 then Option.none
  else some extracted_value

/-- Mutate the first element of `equipment_needs` (the caller has just
ensured the list is non-empty). -/
def setFirstNeed (needs : List EquipmentNeed)
    (f : EquipmentNeed → EquipmentNeed) : List EquipmentNeed :=
  match needs with
  | [] => []
  | n :: rest => f n :: rest

/-- `int(...)` on an all-digit string. -/
def pyIntOfDigits (s : String) : Option ℤ :=
  if !s.data.isEmpty && s.data.all Char.isDigit then
    some ((s.data.foldl (fun n c => 10 * n + ((c.toNat : ℤ) - 48)) 0 : ℤ))
  else Option.none

/-- `_update_state_with_extraction`: unconditional assignment into the
nested records; `duration` takes the first digit run of the value,
`height` must parse as a float (failures are silently ignored by the
`try`/`except (ValueError, TypeError)` blocks). -/
def update_state_with_extraction (state : NState) (info_key value : String) :
    NState :=
  if info_key = "project_type" then
    { state with project_details :=
        { state.project_details with project_type := some value } }
  else if info_key = "location" then
    { state with project_details :=
        { state.project_details with location := some value } }
  else if info_key = "duration" then
    match firstDigitRun value with
    | some n =>
        { state with project_details :=
            { state.project_details with duration_days := some (n : ℤ) } }
    | Option.none => state
  else if info_key = "height" then
    match pyFloat value with
    | some height =>
        let needs :=
          if state.equipment_needs.isEmpty then [{}] else state.equipment_needs
        { state with equipment_needs :=
            setFirstNeed needs fun n => { n with height_needed := some height } }
    | Option.none => state
  else if info_key = "equipment_type" then
    let needs :=
      if state.equipment_needs.isEmpty then [{}] else state.equipment_needs
    { state with equipment_needs :=
        setFirstNeed needs fun n => { n with equipment_type := some value } }
  else if info_key = "surface_type" then
    let sc := (state.site_conditions.getD {})
    { state with site_conditions := some { sc with surface_type := some value } }
  else state

/-- `EXTRACTION_PATTERNS` (`src/utils/constants.py`). -/
def height_pattern : String := "(\\d+(?:\\.\\d+)?)\\s*(?:metros?|m|mts?)"

def weight_pattern : String :=
  "(\\d+(?:\\.\\d+)?)\\s*(?:kg|kilos?|kilogramos?|toneladas?|t)"

def days_pattern : String := "(\\d+)\\s*(?:días?|day|days)"

def phone_pattern : String :=
  "(\\+?\\d\x7b1,3\x7d[-.\\s]?)?\\(?\\d\x7b3\x7d\\)?[-.\\s]?\\d\x7b3\x7d[-.\\s]?\\d\x7b4\x7d"

def email_pattern : String :=
  "\\b[A-Za-z0-9._%+-]+@[A-Za-z0-9.-]+\\.[A-Z|a-z]\x7b2,\x7d\\b"

/-- `_extract_information_from_message`: the regex pass.  Each match is
written unconditionally; for the numeric patterns the captured group is
all digits, so the `float`/`int` conversions cannot fail (a hypothetical
failure is modelled as a skip). -/
def extract_information_from_message
    (research : String → String → Option (String × Option String))
    (state : NState) (message : String) : NState :=
  let state :=
    match research height_pattern message with
    | some (_, some g1) =>
        (match pyFloat g1 with
         | some height =>
             let needs :=
               if state.equipment_needs.isEmpty then [{}] else state.equipment_needs
             { state with equipment_needs :=
                 setFirstNeed needs fun n => { n with height_needed := some height } }
         | Option.none => state)
    | _ => state
  let state :=
    match research weight_pattern message with
    | some (_, some g1) =>
        (match pyFloat g1 with
         | some weight =>
             let needs :=
               if state.equipment_needs.isEmpty then [{}] else state.equipment_needs
             { state with equipment_needs :=
                 setFirstNeed needs fun n => { n with capacity_needed := some weight } }
         | Option.none => state)
    | _ => state
  let state :=
    match research days_pattern message with
    | some (_, some g1) =>
        (match pyIntOfDigits g1 with
         | some days =>
             { state with project_details :=
                 { state.project_details with duration_days := some days } }
         | Option.none => state)
    | _ => state
  let state :=
    match research phone_pattern message with
    | some (g0, _) =>
        { state with client_info := { state.client_info with phone := some g0 } }
    | _ => state
  match research email_pattern message with
  | some (g0, _) =>
      { state with client_info := { state.client_info with email := some g0 } }
  | _ => state

/-- One iteration of the LLM loop of `_extract_all_possible_info`:
extract the field and, when something was found, write it into the
state. -/
def llmExtractStep (llm : String → String → String) (message : String)
    (st : NState) (field : String) : NState :=
  match extract_with_llm llm field message with
  | some extracted_value => update_state_with_extraction st field extracted_value
  | Option.none => st

/-- `_extract_all_possible_info`: the LLM pass over the six fields in
order, then the regex pass. -/
def extract_all_possible_info (llm : String → String → String)
    (research : String → String → Option (String × Option String))
    (state : NState) (message : String) : NState :=
  let fields := ["project_type", "location", "duration", "height",
    "equipment_type", "surface_type"]
  let state := fields.foldl (llmExtractStep llm message) state
  extract_information_from_message research state message

/-! ## `equipment_advisor` and `escalation_handler` nodes
(`src/agent/nodes.py` lines 203–233 and 286–305)

`get_recommendations` queries the equipment database, so the node takes
the service result as the `recommendations` parameter; `datetime.now()` is
the `now` parameter. -/

def no_equipment_message : String :=
  "Lo siento, no tengo equipos disponibles que cumplan exactamente con tus requisitos. \nTe voy a conectar con uno de nuestros especialistas para revisar opciones alternativas."

/-- `_format_equipment_recommendations`, numbering from 1. -/
def formatRecsFrom : ℕ → List Recommendation → String
  | _, [] => ""
  | i, e :: rest =>
      "**" ++ toString i ++ ". " ++ e.name ++ "**\n" ++
      "   • Altura máxima: " ++ pyRatStr e.max_height ++ "m\n" ++
      "   • Capacidad: " ++ pyRatStr e.max_capacity ++ "kg\n" ++
      "   • Precio por día: $" ++ pyRatStr e.daily_rate ++ "\n\n" ++
      formatRecsFrom (i + 1) rest

def format_equipment_recommendations (recommendations : List Recommendation) :
    String :=
  "Basado en tus necesidades, te recomiendo:\n\n" ++
  formatRecsFrom 1 recommendations ++
  "¿Te gustaría que prepare una cotización con alguno de estos equipos?"

/-- `AgentNodes.equipment_advisor`. -/
def equipment_advisor (recommendations : List Recommendation)
    (now : PyDateTime) (state : NState) : NState :=
  let state :=
    if recommendations.isEmpty then
      add_message_to_history now
        { state with
            needs_human_intervention := true
            escalation_reason := some "No equipment available for requirements"
            next_action := some "escalation_handler" }
        "assistant" no_equipment_message
    else
      add_message_to_history now
        { state with
            selected_equipment := recommendations
            conversation_stage := "quote_generation"
            next_action := some "quote_calculator" }
        "assistant" (format_equipment_recommendations recommendations)
  { state with updated_at := now }

/-- The hand-off message of `escalation_handler`
(`settings.support_phone` and `settings.support_email` are the
`config/settings.py` defaults). -/
def escalation_response_message : String :=
  "Te voy a conectar con uno de nuestros especialistas que podrá ayudarte mejor con tu consulta.\n\n📞 Puedes llamarnos al: +1234567890\n📧 O escribirnos a: support@rentalheights.com\n\nMientras tanto, ¿hay algo más en lo que pueda ayudarte?"

/-- `AgentNodes.escalation_handler`: always stage `escalated`,
`needs_human_intervention` true, next action `conversation_manager`.
(The local `escalation_reason` read in the source is unused.) -/
def escalation_handler (now : PyDateTime) (state : NState) : NState :=
  let state := add_message_to_history now state "assistant" escalation_response_message
  { state with
      conversation_stage := "escalated"
      needs_human_intervention := true
      next_action := some "conversation_manager"
      updated_at := now }

/-! ## Routing functions (`src/agent/graph.py` lines 104–208)

The routing functions read the state as a dict with `state.get`, so their
view keeps the absent/`None`/value distinction for `next_action`.
`RouteVal.stop` is returning the langgraph `END` sentinel;
`RouteVal.node v` is returning the Python value `v` (a node-name string,
or `None` on degenerate states). -/

inductive RouteVal where
  | node (next : Option String) : RouteVal
  | stop : RouteVal
deriving DecidableEq

structure RouteState where
  /-- `none`: key absent (the `get` default applies); `some v`: key
  present with value `v`, where `v = none` is Python `None`. -/
  next_action : Option (Option String)
  needs_human_intervention : Bool
  /-- `state.get("conversation_stage")`: absent and `None` coincide
  (both compare unequal to every stage name). -/
  conversation_stage : Option String
deriving DecidableEq

/-- `state.get(key, default)` for a string-valued key. -/
def pyGetOr (x : Option (Option String)) (default : String) : Option String :=
  match x with
  | Option.none => some default
  | some v => v

/-- `_route_from_router`. -/
def route_from_router (state : RouteState) : RouteVal :=
  let next_action := pyGetOr state.next_action "conversation_manager"
  if state.needs_human_intervention then RouteVal.node (some "escalation_handler")
  else RouteVal.node next_action

/-- `_route_from_information_gatherer`. -/
def route_from_information_gatherer (state : RouteState) : RouteVal :=
  let next_action := pyGetOr state.next_action "end"
  if next_action = some "end" then RouteVal.stop
  else if state.needs_human_intervention then RouteVal.node (some "escalation_handler")
  else if state.conversation_stage = some "completed" then RouteVal.stop
  else RouteVal.node next_action

/-- `_route_from_equipment_advisor`. -/
def route_from_equipment_advisor (state : RouteState) : RouteVal :=
  let next_action := pyGetOr state.next_action "end"
  if next_action = some "end" then RouteVal.stop
  else if state.needs_human_intervention then RouteVal.node (some "escalation_handler")
  else if state.conversation_stage = some "completed" then RouteVal.stop
  else RouteVal.node next_action

/-- `_route_from_quote_calculator`. -/
def route_from_quote_calculator (state : RouteState) : RouteVal :=
  let next_action := pyGetOr state.next_action "conversation_manager"
  if next_action = some "end" then RouteVal.stop
  else if state.needs_human_intervention then RouteVal.node (some "escalation_handler")
  else if state.conversation_stage = some "completed" then RouteVal.stop
  else RouteVal.node next_action

/-- `_route_from_conversation_manager`. -/
def route_from_conversation_manager (state : RouteState) : RouteVal :=
  let next_action := pyGetOr state.next_action "end"
  if next_action = some "end" then RouteVal.stop
  else if state.needs_human_intervention then RouteVal.node (some "escalation_handler")
  else if state.conversation_stage = some "completed" then RouteVal.stop
  else RouteVal.node next_action

/-- `_route_from_escalation_handler`. -/
def route_from_escalation_handler (state : RouteState) : RouteVal :=
  let next_action := pyGetOr state.next_action "end"
  if next_action = some "end" then RouteVal.stop
  else if state.conversation_stage = some "completed" ∨
      state.conversation_stage = some "escalated" then RouteVal.stop
  else if next_action = some "conversation_manager" then
    RouteVal.node (some "conversation_manager")
  else RouteVal.stop

/-- The routing view of a node-level state: every `TypedDict` key is
present, so both `get` fields are `some`. -/
def NState.routeView (state : NState) : RouteState :=
  { next_action := some state.next_action
    needs_human_intervention := state.needs_human_intervention
    conversation_stage := some state.conversation_stage }

/-- A concrete recommendation line used by witnesses. -/
def wRec : Recommendation :=
  { id := "eq-1", name := "Andamio A", equipment_type := "andamio"
    max_height := 10, max_capacity := 300, daily_rate := 40
    weekly_rate := some 220, monthly_rate := some 700
    platform_size := some "2x1.5m", description := Option.none
    quantity := 2, subtotal := 450, suitability_score := 55 }

/-- A concrete timestamp used by witnesses. -/
def wNow : PyDateTime := ⟨2025, 6, 2, 12, 0, 0, 0⟩

/-- Equipment with a monthly rate, used to refute the flat-monthly-rate
reading of the tier rule. -/
def cexEquipment : Equipment :=
  { id := "eq-m", name := "Plataforma P", equipment_type := "plataforma_elevadora"
    max_height := 20, max_capacity := 500, daily_rate := 10
    weekly_rate := Option.none, monthly_rate := some 100
    platform_size := Option.none, description := Option.none
    is_available := true, quantity_available := 3 }

/-- A minimal state passing `_validate_state`. -/
def wValidState : StateDict :=
  [("conversation_stage", PyVal.str "greeting"),
   ("conversation_history", PyVal.list []),
   ("last_message", PyVal.str "hola"),
   ("project_details", PyVal.obj "ProjectDetails" []),
   ("client_info", PyVal.obj "ClientInfo" []),
   ("next_action", PyVal.none)]

/-- A turn execution that raises. -/
def wInvokeErr : StateDict → Except String StateDict :=
  fun _ => Except.error "boom"

/-- The validation failures `_validate_state` actually detects: the three
required fields absent (a present `None` passes), or `project_details` /
`client_info` absent or `None`. -/
def missingRequiredTopLevel (state : StateDict) : Prop :=
  hasKey state "conversation_stage" = false ∨
  hasKey state "conversation_history" = false ∨
  hasKey state "last_message" = false ∨
  hasKey state "project_details" = false ∨
  isNoneValue (pyLookup state "project_details") = true ∨
  hasKey state "client_info" = false ∨
  isNoneValue (pyLookup state "client_info") = true

/-- A state whose `conversation_stage` key is absent. -/
def cexMissingStage : StateDict :=
  [("conversation_history", PyVal.list []),
   ("last_message", PyVal.str "hola"),
   ("project_details", PyVal.obj "ProjectDetails" []),
   ("client_info", PyVal.obj "ClientInfo" []),
   ("next_action", PyVal.str "information_gatherer")]

/-- A state whose `conversation_stage` key is present but `None`. -/
def cexNullStage : StateDict :=
  [("conversation_stage", PyVal.none),
   ("conversation_history", PyVal.list []),
   ("last_message", PyVal.str "hola"),
   ("project_details", PyVal.obj "ProjectDetails" []),
   ("client_info", PyVal.obj "ClientInfo" [])]

def cexIdInvoke : StateDict → Except String StateDict := Except.ok

/-- A turn execution whose result is recognizable. -/
def cexMarkerInvoke : StateDict → Except String StateDict :=
  fun _ => Except.ok [("ran", PyVal.bool true)]

/-- A state with `needs_human_intervention` set and `next_action` `end`. -/
def cexEndAndEscalate : RouteState :=
  { next_action := some (some "end"), needs_human_intervention := true
    conversation_stage := some "gathering_basic_info" }

/-- A non-terminal state in the `escalated` stage. -/
def cexEscalatedStage : RouteState :=
  { next_action := some (some "information_gatherer")
    needs_human_intervention := false
    conversation_stage := some "escalated" }

/-- A state that escalates while proposing a non-`end` action. -/
def wEscalating : RouteState :=
  { next_action := some (some "information_gatherer")
    needs_human_intervention := true
    conversation_stage := some "gathering_basic_info" }

/-- A request whose height and capacity are both out of range. -/
def cexBadRequest : RequestData := { height := some 1, capacity := some 50 }

/-- A well-formed state carrying a `PricingInfo` record. -/
def cexPricingState : StateDict :=
  [("conversation_stage", PyVal.str "quote_review"),
   ("created_at", PyVal.dt ⟨2025, 6, 2, 12, 30, 5, 0⟩),
   ("updated_at", PyVal.dt ⟨2025, 6, 2, 12, 30, 5, 250000⟩),
   ("client_info", PyVal.obj "ClientInfo" [("name", PyVal.str "Ana")]),
   ("conversation_history",
     PyVal.list [PyVal.dict [("role", PyVal.str "user"),
       ("content", PyVal.str "hola"),
       ("timestamp", PyVal.dt ⟨2025, 6, 2, 12, 30, 0, 0⟩),
       ("message_type", PyVal.none)]]),
   ("pricing_info", PyVal.obj "PricingInfo"
     [("equipment_subtotal", PyVal.int 450),
      ("currency", PyVal.str "USD")])]

/-- Per the amended C4: the LLM pass unconditionally assigns the
`project_type` it extracts, overwriting any previous value. -/
def lastWriterProjectType (llm : String → String → String) (message : String)
    (prev : Option String) : Option String :=
  match extract_with_llm llm "project_type" message with
  | some v => some v
  | Option.none => prev

/-- Per the amended C4: the LLM pass unconditionally assigns the duration
it extracts (its first digit run), overwriting any previous value. -/
def llmDurationResult (llm : String → String → String) (message : String)
    (prev : Option ℤ) : Option ℤ :=
  match extract_with_llm llm "duration" message with
  | some v =>
      (match firstDigitRun v with
       | some n => some (n : ℤ)
       | Option.none => prev)
  | Option.none => prev

/-- Per the amended C4: the regex pass runs after the LLM pass and its
match overwrites the LLM result — the last writer wins. -/
def lastWriterDuration (llm : String → String → String)
    (research : String → String → Option (String × Option String))
    (message : String) (prev : Option ℤ) : Option ℤ :=
  match research days_pattern message with
  | some (_, some g1) =>
      (match pyIntOfDigits g1 with
       | some d => some d
       | Option.none => llmDurationResult llm message prev)
  | _ => llmDurationResult llm message prev

/-- An LLM that extracts a project type and a duration. -/
def cexLlm : String → String → String :=
  fun system_prompt _message =>
    if system_prompt = extraction_system_prompt "project_type" then "mantenimiento"
    else if system_prompt = extraction_system_prompt "duration" then "10"
    else "None"

/-- A regex engine that matches only the days pattern. -/
def cexResearch : String → String → Option (String × Option String) :=
  fun pattern _message =>
    if pattern = days_pattern then some ("7 días", some "7") else Option.none

/-- A state whose `project_type` and `duration_days` are already set
before extraction runs. -/
def cexPresetState : NState :=
  { project_details := { project_type := some "limpieza", duration_days := some 5 } }

/-! ## Theorems -/

theorem listHasPre_refl (l : List Char) : listHasPre l l = true := by
  induction l with
  | nil => rfl
  | cons a as ih => simp [listHasPre, ih]

theorem listHasSub_append (a b : List Char) : listHasSub b (a ++ b) = true := by
  induction a with
  | nil =>
      cases b with
      | nil => rfl
      | cons x xs => simp [listHasSub, listHasPre_refl]
  | cons x xs ih => simp [listHasSub, ih]

/-- A string contains any of its suffixes (used for the claim that the
escalation reason contains the exception message). -/
theorem strContains_append (a b : String) : strContains (a ++ b) b = true := by
  simpa [strContains] using listHasSub_append a.data b.data

theorem parse2_pad2 : ∀ n < 100, parse2 (digitChar (n / 10)) (digitChar (n % 10)) = n := by
  decide

theorem take2_pad2 {n : ℕ} (h : n < 100) (rest : List Char) :
    take2 (pad2 n ++ rest) = some (n, rest) := by
  simp [pad2, take2, parse2_pad2 n h]

theorem take2_pad2_nil {n : ℕ} (h : n < 100) :
    take2 (pad2 n) = some (n, []) := by
  simp [pad2, take2, parse2_pad2 n h]

theorem expectChar_cons (c : Char) (rest : List Char) :
    expectChar c (c :: rest) = some rest := by
  simp [expectChar]

set_option maxHeartbeats 1000000 in
/-- The ISO-8601 encoding round-trips on the character level,
stated over the seven calendar fields. -/
theorem fromisoChars_isoChars_fields (y mo dd hh mi ss us : ℕ)
    (hy : y < 10000) (hmo : mo < 100) (hdd : dd < 100) (hho : hh < 100)
    (hmin : mi < 100) (hsec : ss < 100) (hus : us < 1000000) :
    fromisoChars (isoChars ⟨y, mo, dd, hh, mi, ss, us⟩) =
      some ⟨y, mo, dd, hh, mi, ss, us⟩ := by
  have hy1 : y / 100 < 100 := by omega
  have hy2 : y % 100 < 100 := by omega
  by_cases h0 : us = 0
  · simp only [isoChars, fromisoChars, parseUsecTail, h0, if_true, eq_self_iff_true,
      take2_pad2 hy1, take2_pad2 hy2, take2_pad2 hmo, take2_pad2 hdd,
      take2_pad2 hho, take2_pad2 hmin, take2_pad2 hsec, expectChar_cons,
      Option.some_bind, Option.map_some', Option.some.injEq, PyDateTime.mk.injEq,
      and_true, true_and]
    omega
  · have hu1 : us / 10000 < 100 := by omega
    have hu2 : us / 100 % 100 < 100 := by omega
    have hu3 : us % 100 < 100 := by omega
    simp only [isoChars, fromisoChars, parseUsecTail, h0, if_false, ite_false,
      take2_pad2 hy1, take2_pad2 hy2, take2_pad2 hmo, take2_pad2 hdd,
      take2_pad2 hho, take2_pad2 hmin, take2_pad2 hsec,
      take2_pad2 hu1, take2_pad2 hu2, take2_pad2_nil hu3, expectChar_cons,
      List.isEmpty_nil, Option.some_bind, Option.map_some', if_true,
      Option.some.injEq, PyDateTime.mk.injEq, and_true, true_and]
    omega

/-- The ISO-8601 encoding round-trips: parsing the printed form of any
in-range `datetime` recovers it exactly. -/
theorem fromisoformat_isoformat (d : PyDateTime) (h : d.Valid) :
    fromisoformat (isoformat d) = some d := by
  obtain ⟨y, mo, dd, hh, mi, ss, us⟩ := d
  simp only [PyDateTime.Valid] at h
  exact fromisoChars_isoChars_fields y mo dd hh mi ss us
    (by omega) (by omega) (by omega) (by omega) (by omega) (by omega) (by omega)

theorem pyLookup_pySet_same (s : StateDict) (k : String) (v : PyVal) :
    pyLookup (pySet s k v) k = some v := by
  induction s with
  | nil => simp [pySet, pyLookup]
  | cons kv rest ih =>
      obtain ⟨k2, v2⟩ := kv
      by_cases h : k2 = k
      · simp [pySet, pyLookup, h]
      · simp [pySet, pyLookup, h, ih]

theorem pyLookup_pySet_other (s : StateDict) (k k2 : String) (v : PyVal)
    (h : k ≠ k2) : pyLookup (pySet s k v) k2 = pyLookup s k2 := by
  induction s with
  | nil => simp [pySet, pyLookup, h]
  | cons kv rest ih =>
      obtain ⟨k3, v3⟩ := kv
      by_cases h3 : k3 = k
      · subst h3
        simp [pySet, pyLookup, h]
      · simp [pySet, pyLookup, h3, ih]

/-- Per-entry round trip: every well-formed entry except `pricing_info`
comes back unchanged; `pricing_info` comes back as its plain `__dict__`. -/
theorem deTop_serTop (k : String) (v : PyVal) (h : wfEntry k v = true) :
    deTop k (serTop v) = (if k = "pricing_info" then stripToDict v else v) := by
  by_cases hd : k = "created_at" ∨ k = "updated_at"
  · have hk : ¬ k = "pricing_info" := by
      rcases hd with h1 | h1 <;> simp [h1]
    cases v <;> simp [wfEntry, hd] at h
    next d =>
      simp [serTop, deTop, hd, hk, fromisoformat_isoformat d h]
  · by_cases hc : k = "client_info"
    · subst hc
      cases v <;> simp [wfEntry] at h
      next cls attrs =>
        subst h
        simp [serTop, deTop]
    · by_cases hp : k = "project_details"
      · subst hp
        cases v <;> simp [wfEntry] at h
        next cls attrs =>
          subst h
          simp [serTop, deTop]
      · by_cases hs : k = "site_conditions"
        · subst hs
          cases v <;> simp [wfEntry] at h
          next cls attrs =>
            subst h
            simp [serTop, deTop]
        · by_cases he : k = "equipment_needs"
          · subst he
            cases v <;> simp [wfEntry] at h
            next xs =>
              have hitem : ∀ x ∈ xs, deNeedItem (serItem x) = x := by
                intro x hx
                have hx2 := h x hx
                cases x <;> simp at hx2
                next cls attrs =>
                  subst hx2
                  rfl
              simp [serTop, deTop, List.map_map]
              conv_rhs => rw [← List.map_id xs]
              refine List.map_congr_left ?_
              intro x hx
              simp [Function.comp, hitem x hx]
          · by_cases hh : k = "conversation_history"
            · subst hh
              cases v <;> simp [wfEntry] at h
              next xs =>
                have hitem : ∀ x ∈ xs, deMsgItem (serItem x) = x := by
                  intro x hx
                  have hx2 := h x hx
                  cases x <;> simp [isDictVal] at hx2
                  rfl
                simp [serTop, deTop, List.map_map]
                conv_rhs => rw [← List.map_id xs]
                refine List.map_congr_left ?_
                intro x hx
                simp [Function.comp, hitem x hx]
            · by_cases hpr : k = "pricing_info"
              · subst hpr
                cases v <;> simp [wfEntry] at h
                next cls attrs =>
                  simp [serTop, deTop, stripToDict]
              · simp only [wfEntry, hd, hc, hp, hs, he, hh, hpr, if_false] at h
                have hser : serTop v = v := by
                  cases v <;> simp [isAtomic, isDictVal] at h <;> try rfl
                  next xs =>
                    simp only [serTop, PyVal.list.injEq]
                    conv_rhs => rw [← List.map_id xs]
                    refine List.map_congr_left ?_
                    intro x hx
                    have hx2 := h x hx
                    cases x <;> simp [isAtomic, isDictVal] at hx2 <;> rfl
                have hde : deTop k v = v := by
                  simp [deTop, hd, hc, hp, hs, he, hh]
                rw [hser, hde, if_neg hpr]

theorem caughtErrors_length (r : Except String Bool) :
    (caughtErrors r).length ≤ 1 := by
  cases r <;> simp [caughtErrors]

/-- C10: whenever `escalation_handler` runs during a turn, the turn
terminates immediately afterwards: the node always sets
`conversation_stage` to `escalated` and `next_action` to
`conversation_manager`, and `_route_from_escalation_handler` checks the
escalated stage before following `next_action`, so it always yields
end-of-turn — `conversation_manager` is never reached from
`escalation_handler` within the same turn. -/
theorem C10_escalation_handler_ends_turn (now : PyDateTime) (state : NState) :
    (escalation_handler now state).conversation_stage = "escalated" ∧
    (escalation_handler now state).next_action = some "conversation_manager" ∧
    route_from_escalation_handler (escalation_handler now state).routeView =
      RouteVal.stop := by
  refine ⟨rfl, rfl, ?_⟩
  simp [escalation_handler, add_message_to_history, NState.routeView,
    route_from_escalation_handler, pyGetOr]

/-- C6: when the recommendation service returns no qualifying catalog
items, `equipment_advisor` sets `needs_human_intervention`, records a
non-null escalation reason, routes to `escalation_handler`, and leaves the
conversation stage unchanged; when the recommendation list is non-empty it
stores it as `selected_equipment`, advances the stage to
`quote_generation`, and routes to `quote_calculator`. -/
theorem C6_equipment_advisor_branches (recommendations : List Recommendation)
    (now : PyDateTime) (state : NState) :
    (recommendations = [] →
      (equipment_advisor recommendations now state).needs_human_intervention = true ∧
      (equipment_advisor recommendations now state).escalation_reason =
        some "No equipment available for requirements" ∧
      (equipment_advisor recommendations now state).next_action =
        some "escalation_handler" ∧
      (equipment_advisor recommendations now state).conversation_stage =
        state.conversation_stage) ∧
    (recommendations ≠ [] →
      (equipment_advisor recommendations now state).selected_equipment =
        recommendations ∧
      (equipment_advisor recommendations now state).conversation_stage =
        "quote_generation" ∧
      (equipment_advisor recommendations now state).next_action =
        some "quote_calculator") := by
  constructor
  · intro h
    subst h
    simp [equipment_advisor, add_message_to_history]
  · intro h
    simp [equipment_advisor, add_message_to_history, List.isEmpty_iff, h]

theorem C6_equipment_advisor_branches_witness :
    (equipment_advisor [] wNow {}).next_action = some "escalation_handler" ∧
    (equipment_advisor [wRec] wNow {}).next_action = some "quote_calculator" :=
  ⟨((C6_equipment_advisor_branches [] wNow {}).1 rfl).2.2.1,
   ((C6_equipment_advisor_branches [wRec] wNow {}).2 (by simp)).2.2⟩

/-- C5: the pricing engine rounds each component independently and the
total is computed from the unrounded components: insurance is
`round2 (0.05 S)`, tax is `round2 (0.19 (S+D+U))`, and the total is
`round2 ((S+D+U+0.05 S+0.19 (S+D+U)) · m)` with `m = 1.2` exactly when
the start date falls on a weekend and `m = 1` otherwise (including an
unset start date). -/
theorem C5_pricing_formula (selected_equipment : List Recommendation)
    (project_details : ProjectDetails) (valid_until : PyDateTime) :
    (calculate_quote selected_equipment project_details valid_until).equipment_subtotal =
      round2 ((selected_equipment.map Recommendation.subtotal).sum) ∧
    (calculate_quote selected_equipment project_details valid_until).delivery_cost =
      round2 (calculate_delivery_cost project_details.location) ∧
    (calculate_quote selected_equipment project_details valid_until).setup_cost =
      round2 (calculate_setup_cost selected_equipment) ∧
    (calculate_quote selected_equipment project_details valid_until).insurance_cost =
      round2 ((5 / 100) * (selected_equipment.map Recommendation.subtotal).sum) ∧
    (calculate_quote selected_equipment project_details valid_until).tax_amount =
      round2 ((19 / 100) *
        ((selected_equipment.map Recommendation.subtotal).sum +
         calculate_delivery_cost project_details.location +
         calculate_setup_cost selected_equipment)) ∧
    (calculate_quote selected_equipment project_details valid_until).total_amount =
      round2
        (((selected_equipment.map Recommendation.subtotal).sum +
          calculate_delivery_cost project_details.location +
          calculate_setup_cost selected_equipment +
          (5 / 100) * (selected_equipment.map Recommendation.subtotal).sum +
          (19 / 100) *
            ((selected_equipment.map Recommendation.subtotal).sum +
             calculate_delivery_cost project_details.location +
             calculate_setup_cost selected_equipment)) *
          (match project_details.start_date with
           | Option.none => (1 : ℚ)
           | some d => if 5 ≤ pyWeekday d then 6 / 5 else 1)) := by
  refine ⟨rfl, rfl, rfl, ?_, ?_, ?_⟩
  · exact congrArg round2 (by unfold calculate_insurance_cost; ring)
  · exact congrArg round2 (by unfold calculate_taxes; ring)
  · refine congrArg round2 ?_
    unfold get_date_surcharge_multiplier calculate_insurance_cost
      calculate_taxes weekend_surcharge
    cases project_details.start_date with
    | none => ring
    | some d => ring

/-- C9 counterexample: for a 60-day rental of an item with monthly rate
100 and quantity 1, the code charges `100 · (60/30) · 1 = 200`, not the
monthly rate times the quantity (100). -/
theorem C9_counterexample :
    calculate_equipment_subtotal cexEquipment 60 1 = 200 ∧
    cexEquipment.monthly_rate.getD 0 * (1 : ℚ) = 100 ∧
    (200 : ℚ) ≠ 100 := by
  refine ⟨?_, ?_, ?_⟩
  · norm_num [calculate_equipment_subtotal, cexEquipment, optRatTruthy]
  · norm_num [cexEquipment]
  · norm_num

/-- C9 (amended): the tier selection is as claimed, but the chosen
monthly rate is scaled by `duration_days / 30` months and the weekly rate
by `duration_days / 7` weeks (true division) before multiplying by the
quantity; only the daily tier multiplies by the raw day count. -/
theorem C9_tiered_rate_amended (equipment : Equipment)
    (duration_days quantity : ℤ) :
    (30 ≤ duration_days → optRatTruthy equipment.monthly_rate = true →
      calculate_equipment_subtotal equipment duration_days quantity =
        equipment.monthly_rate.getD 0 * ((duration_days : ℚ) / 30) * (quantity : ℚ)) ∧
    (¬ (30 ≤ duration_days ∧ optRatTruthy equipment.monthly_rate = true) →
      7 ≤ duration_days → optRatTruthy equipment.weekly_rate = true →
      calculate_equipment_subtotal equipment duration_days quantity =
        equipment.weekly_rate.getD 0 * ((duration_days : ℚ) / 7) * (quantity : ℚ)) ∧
    (¬ (30 ≤ duration_days ∧ optRatTruthy equipment.monthly_rate = true) →
      ¬ (7 ≤ duration_days ∧ optRatTruthy equipment.weekly_rate = true) →
      calculate_equipment_subtotal equipment duration_days quantity =
        equipment.daily_rate * (duration_days : ℚ) * (quantity : ℚ)) := by
  refine ⟨?_, ?_, ?_⟩
  · intro h1 h2
    simp [calculate_equipment_subtotal, h1, h2]
  · intro h1 h2 h3
    simp [calculate_equipment_subtotal, h1, h2, h3]
  · intro h1 h2
    simp [calculate_equipment_subtotal, h1, h2]

theorem C9_tiered_rate_amended_witness :
    calculate_equipment_subtotal cexEquipment 60 1 =
      cexEquipment.monthly_rate.getD 0 * ((60 : ℚ) / 30) * (1 : ℚ) :=
  (C9_tiered_rate_amended cexEquipment 60 1).1 (by norm_num)
    (by norm_num [cexEquipment, optRatTruthy])

/-- C2: an exception raised inside any node during a turn is swallowed at
the turn boundary — `process_message` is a total function of the state (it
never re-raises) and returns the input state with
`needs_human_intervention` true, stage `escalated`, `next_action` `end`,
and an `escalation_reason` containing the exception message; every other
key is left as it was. -/
theorem C2_exception_swallowed (invoke : StateDict → Except String StateDict)
    (state : StateDict) (e : String)
    (hv : validate_state state = true) (he : invoke state = Except.error e) :
    pyLookup (process_message invoke state) "needs_human_intervention" =
      some (PyVal.bool true) ∧
    pyLookup (process_message invoke state) "escalation_reason" =
      some (PyVal.str ("Technical error: " ++ e)) ∧
    pyLookup (process_message invoke state) "conversation_stage" =
      some (PyVal.str "escalated") ∧
    pyLookup (process_message invoke state) "next_action" =
      some (PyVal.str "end") ∧
    strContains ("Technical error: " ++ e) e = true ∧
    (∀ k, k ≠ "needs_human_intervention" → k ≠ "escalation_reason" →
      k ≠ "conversation_stage" → k ≠ "next_action" →
      pyLookup (process_message invoke state) k = pyLookup state k) := by
  have hp : process_message invoke state =
      pySet (pySet (pySet (pySet state
        "needs_human_intervention" (PyVal.bool true))
        "escalation_reason" (PyVal.str ("Technical error: " ++ e)))
        "conversation_stage" (PyVal.str "escalated"))
        "next_action" (PyVal.str "end") := by
    unfold process_message
    rw [hv]
    simp [he]
  have dDA : "next_action" ≠ "needs_human_intervention" := by decide
  have dCA : "conversation_stage" ≠ "needs_human_intervention" := by decide
  have dBA : "escalation_reason" ≠ "needs_human_intervention" := by decide
  have dDB : "next_action" ≠ "escalation_reason" := by decide
  have dCB : "conversation_stage" ≠ "escalation_reason" := by decide
  have dDC : "next_action" ≠ "conversation_stage" := by decide
  refine ⟨?_, ?_, ?_, ?_, strContains_append _ _, ?_⟩
  · rw [hp, pyLookup_pySet_other _ _ _ _ dDA, pyLookup_pySet_other _ _ _ _ dCA,
      pyLookup_pySet_other _ _ _ _ dBA, pyLookup_pySet_same]
  · rw [hp, pyLookup_pySet_other _ _ _ _ dDB, pyLookup_pySet_other _ _ _ _ dCB,
      pyLookup_pySet_same]
  · rw [hp, pyLookup_pySet_other _ _ _ _ dDC, pyLookup_pySet_same]
  · rw [hp, pyLookup_pySet_same]
  · intro k hkA hkB hkC hkD
    rw [hp, pyLookup_pySet_other _ _ _ _ (Ne.symm hkD),
      pyLookup_pySet_other _ _ _ _ (Ne.symm hkC),
      pyLookup_pySet_other _ _ _ _ (Ne.symm hkB),
      pyLookup_pySet_other _ _ _ _ (Ne.symm hkA)]

theorem C2_exception_swallowed_witness :
    pyLookup (process_message wInvokeErr wValidState) "conversation_stage" =
      some (PyVal.str "escalated") ∧
    pyLookup (process_message wInvokeErr wValidState) "next_action" =
      some (PyVal.str "end") :=
  ⟨(C2_exception_swallowed wInvokeErr wValidState "boom" rfl rfl).2.2.1,
   (C2_exception_swallowed wInvokeErr wValidState "boom" rfl rfl).2.2.2.1⟩

theorem validate_state_false_of_missing (state : StateDict)
    (h : missingRequiredTopLevel state) : validate_state state = false := by
  unfold validate_state
  rcases h with h | h | h | h | h | h | h <;> simp [h]

/-- C3 (amended): when `_validate_state` rejects the state — one of
`conversation_stage`/`conversation_history`/`last_message` absent, or
`project_details`/`client_info` absent or null — `process_message`
executes no node (the result does not depend on `invoke`) and returns the
state with only `needs_human_intervention` set true and
`escalation_reason` set to `"Invalid state structure"`;
`conversation_stage` and `next_action` are left unchanged, not set to
`escalated`/`end`; and a present-but-null `conversation_stage` is not
rejected at all. -/
theorem C3_validation_partial_fallback
    (invoke : StateDict → Except String StateDict) (state : StateDict)
    (h : missingRequiredTopLevel state) :
    pyLookup (process_message invoke state) "needs_human_intervention" =
      some (PyVal.bool true) ∧
    pyLookup (process_message invoke state) "escalation_reason" =
      some (PyVal.str "Invalid state structure") ∧
    (∀ k, k ≠ "needs_human_intervention" → k ≠ "escalation_reason" →
      pyLookup (process_message invoke state) k = pyLookup state k) := by
  have hv := validate_state_false_of_missing state h
  have hp : process_message invoke state =
      pySet (pySet state "needs_human_intervention" (PyVal.bool true))
        "escalation_reason" (PyVal.str "Invalid state structure") := by
    unfold process_message
    rw [hv]
    simp
  have dBA : "escalation_reason" ≠ "needs_human_intervention" := by decide
  refine ⟨?_, ?_, ?_⟩
  · rw [hp, pyLookup_pySet_other _ _ _ _ dBA, pyLookup_pySet_same]
  · rw [hp, pyLookup_pySet_same]
  · intro k hkA hkB
    rw [hp, pyLookup_pySet_other _ _ _ _ (Ne.symm hkB),
      pyLookup_pySet_other _ _ _ _ (Ne.symm hkA)]

/-- C3 counterexample: with `conversation_stage` absent, the returned
state keeps its old `next_action` (`"information_gatherer"`, not `"end"`)
and still has no `conversation_stage` (not `"escalated"`), so the full
escalation fallback is not applied; and with `conversation_stage` present
but null, validation passes and the graph is executed, so no short-circuit
happens. -/
theorem C3_counterexample :
    pyLookup (process_message cexIdInvoke cexMissingStage) "next_action" =
      some (PyVal.str "information_gatherer") ∧
    (some (PyVal.str "information_gatherer") : Option PyVal) ≠
      some (PyVal.str "end") ∧
    pyLookup (process_message cexIdInvoke cexMissingStage) "conversation_stage" =
      Option.none ∧
    validate_state cexNullStage = true ∧
    process_message cexMarkerInvoke cexNullStage = [("ran", PyVal.bool true)] := by
  refine ⟨rfl, by simp, rfl, rfl, rfl⟩

theorem C3_validation_partial_fallback_witness :
    pyLookup (process_message cexIdInvoke cexMissingStage)
      "needs_human_intervention" = some (PyVal.bool true) :=
  (C3_validation_partial_fallback cexIdInvoke cexMissingStage
    (Or.inl rfl)).1

/-- C1 (amended): for the two cited routers
(`_route_from_information_gatherer` and `_route_from_quote_calculator`)
the overrides apply in this order: (1) `next_action == "end"` (with the
router's own `get` default) terminates the turn; (2) otherwise
`needs_human_intervention` goes to `escalation_handler`; (3) otherwise a
`completed` stage — and only `completed`, the `escalated` stage is not
checked here — terminates the turn; (4) otherwise the router follows
`next_action`.  In particular a state with `needs_human_intervention` true
and `next_action == "end"` terminates the turn instead of escalating. -/
theorem C1_router_precedence (state : RouteState) :
    (pyGetOr state.next_action "end" = some "end" →
      route_from_information_gatherer state = RouteVal.stop) ∧
    (pyGetOr state.next_action "end" ≠ some "end" →
      state.needs_human_intervention = true →
      route_from_information_gatherer state =
        RouteVal.node (some "escalation_handler")) ∧
    (pyGetOr state.next_action "end" ≠ some "end" →
      state.needs_human_intervention = false →
      state.conversation_stage = some "completed" →
      route_from_information_gatherer state = RouteVal.stop) ∧
    (pyGetOr state.next_action "end" ≠ some "end" →
      state.needs_human_intervention = false →
      state.conversation_stage ≠ some "completed" →
      route_from_information_gatherer state =
        RouteVal.node (pyGetOr state.next_action "end")) ∧
    (pyGetOr state.next_action "conversation_manager" = some "end" →
      route_from_quote_calculator state = RouteVal.stop) ∧
    (pyGetOr state.next_action "conversation_manager" ≠ some "end" →
      state.needs_human_intervention = true →
      route_from_quote_calculator state =
        RouteVal.node (some "escalation_handler")) ∧
    (pyGetOr state.next_action "conversation_manager" ≠ some "end" →
      state.needs_human_intervention = false →
      state.conversation_stage = some "completed" →
      route_from_quote_calculator state = RouteVal.stop) ∧
    (pyGetOr state.next_action "conversation_manager" ≠ some "end" →
      state.needs_human_intervention = false →
      state.conversation_stage ≠ some "completed" →
      route_from_quote_calculator state =
        RouteVal.node (pyGetOr state.next_action "conversation_manager")) := by
  refine ⟨?_, ?_, ?_, ?_, ?_, ?_, ?_, ?_⟩
  · intro h1
    simp [route_from_information_gatherer, h1]
  · intro h1 h2
    simp [route_from_information_gatherer, h1, h2]
  · intro h1 h2 h3
    simp [route_from_information_gatherer, h1, h2, h3]
  · intro h1 h2 h3
    simp [route_from_information_gatherer, h1, h2, h3]
  · intro h1
    simp [route_from_quote_calculator, h1]
  · intro h1 h2
    simp [route_from_quote_calculator, h1, h2]
  · intro h1 h2 h3
    simp [route_from_quote_calculator, h1, h2, h3]
  · intro h1 h2 h3
    simp [route_from_quote_calculator, h1, h2, h3]

/-- C1 counterexample: with `needs_human_intervention` true and
`next_action == "end"`, both cited routers terminate the turn instead of
selecting `escalation_handler` (the end check precedes the escalation
check); and an `escalated` stage does not terminate the turn in these
routers (the claimed override (3) checks only `completed`). -/
theorem C1_counterexample :
    route_from_information_gatherer cexEndAndEscalate = RouteVal.stop ∧
    route_from_quote_calculator cexEndAndEscalate = RouteVal.stop ∧
    RouteVal.stop ≠ RouteVal.node (some "escalation_handler") ∧
    route_from_information_gatherer cexEscalatedStage =
      RouteVal.node (some "information_gatherer") ∧
    RouteVal.node (some "information_gatherer") ≠ RouteVal.stop := by
  refine ⟨rfl, rfl, by decide, rfl, by decide⟩

theorem C1_router_precedence_witness :
    route_from_information_gatherer wEscalating =
      RouteVal.node (some "escalation_handler") :=
  (C1_router_precedence wEscalating).2.1 (by simp [pyGetOr, wEscalating]) rfl

/-- C8 (amended): `validate_complete_request` runs every per-field check
inside a single `try`, so the first validation failure aborts the
remaining checks and the returned error list holds at most one message
(the first failure's); fields are not validated independently. -/
theorem C8_first_failure_only (request_data : RequestData)
    (yesterday max_future_date : PyDateTime) :
    (validate_complete_request request_data yesterday max_future_date).length ≤ 1 := by
  unfold validate_complete_request
  exact caughtErrors_length _

/-- C8 counterexample: a request with two invalid fields (height 1 and
capacity 50) yields only the height message — the capacity check, which
would also fail, was never reached. -/
theorem C8_counterexample :
    validate_complete_request cexBadRequest wNow wNow =
      ["La altura mínima es 2 metros"] ∧
    validate_height 1 = Except.error "La altura mínima es 2 metros" ∧
    validate_capacity 50 = Except.error "La capacidad mínima es 100 kg" ∧
    (["La altura mínima es 2 metros"] : List String).length ≠ 2 := by
  refine ⟨?_, ?_, ?_, by simp⟩
  · norm_num [validate_complete_request, cexBadRequest, checkOpt,
      validate_height, Except.bind, caughtErrors]
  · norm_num [validate_height]
  · norm_num [validate_capacity]

/-- C7 (amended): deserializing a serialized state reproduces every
well-formed entry — nested records, history messages with their
timestamps, and the ISO-8601-encoded dates — except `pricing_info`, which
comes back as the plain `__dict__` of its `PricingInfo` record because
`_deserialize_state` has no case reconstructing it. -/
theorem C7_roundtrip_modulo_pricing (state : StateDict)
    (h : ∀ kv ∈ state, wfEntry kv.1 kv.2 = true) :
    deserialize_state (serialize_state state) =
      state.map fun kv =>
        (kv.1, if kv.1 = "pricing_info" then stripToDict kv.2 else kv.2) := by
  unfold deserialize_state serialize_state
  rw [List.map_map]
  refine List.map_congr_left ?_
  intro kv hkv
  have := deTop_serTop kv.1 kv.2 (h kv hkv)
  simp [this]

/-- C7 counterexample: the round trip does not reproduce this state — its
`pricing_info` comes back as a plain dict, not as the `PricingInfo` record
it started as. -/
theorem C7_counterexample :
    pyLookup (deserialize_state (serialize_state cexPricingState)) "pricing_info" =
      some (PyVal.dict [("equipment_subtotal", PyVal.int 450),
        ("currency", PyVal.str "USD")]) ∧
    pyLookup cexPricingState "pricing_info" =
      some (PyVal.obj "PricingInfo" [("equipment_subtotal", PyVal.int 450),
        ("currency", PyVal.str "USD")]) ∧
    deserialize_state (serialize_state cexPricingState) ≠ cexPricingState := by
  refine ⟨rfl, rfl, ?_⟩
  intro heq
  have h1 : pyLookup (deserialize_state (serialize_state cexPricingState))
      "pricing_info" =
      some (PyVal.dict [("equipment_subtotal", PyVal.int 450),
        ("currency", PyVal.str "USD")]) := rfl
  rw [heq] at h1
  have h2 : pyLookup cexPricingState "pricing_info" =
      some (PyVal.obj "PricingInfo" [("equipment_subtotal", PyVal.int 450),
        ("currency", PyVal.str "USD")]) := rfl
  exact absurd (h1.symm.trans h2) (by simp)

theorem C7_roundtrip_modulo_pricing_witness :
    deserialize_state (serialize_state cexPricingState) =
      cexPricingState.map fun kv =>
        (kv.1, if kv.1 = "pricing_info" then stripToDict kv.2 else kv.2) :=
  C7_roundtrip_modulo_pricing cexPricingState (by decide)

theorem llmExtractStep_project_type (llm : String → String → String)
    (message : String) (st : NState) :
    (llmExtractStep llm message st "project_type").project_details.project_type =
      lastWriterProjectType llm message st.project_details.project_type := by
  unfold llmExtractStep lastWriterProjectType
  cases extract_with_llm llm "project_type" message <;>
    simp [update_state_with_extraction]

theorem llmExtractStep_ptype_location (llm : String → String → String)
    (message : String) (st : NState) :
    (llmExtractStep llm message st "location").project_details.project_type =
      st.project_details.project_type := by
  unfold llmExtractStep
  cases extract_with_llm llm "location" message with
  | none => rfl
  | some v => simp [update_state_with_extraction]

theorem llmExtractStep_ptype_duration (llm : String → String → String)
    (message : String) (st : NState) :
    (llmExtractStep llm message st "duration").project_details.project_type =
      st.project_details.project_type := by
  unfold llmExtractStep
  cases extract_with_llm llm "duration" message with
  | none => rfl
  | some v => cases h : firstDigitRun v <;> simp [update_state_with_extraction, h]

theorem llmExtractStep_ptype_height (llm : String → String → String)
    (message : String) (st : NState) :
    (llmExtractStep llm message st "height").project_details.project_type =
      st.project_details.project_type := by
  unfold llmExtractStep
  cases extract_with_llm llm "height" message with
  | none => rfl
  | some v => cases h : pyFloat v <;> simp [update_state_with_extraction, h]

theorem llmExtractStep_ptype_et (llm : String → String → String)
    (message : String) (st : NState) :
    (llmExtractStep llm message st "equipment_type").project_details.project_type =
      st.project_details.project_type := by
  unfold llmExtractStep
  cases extract_with_llm llm "equipment_type" message with
  | none => rfl
  | some v => simp [update_state_with_extraction]

theorem llmExtractStep_ptype_surface (llm : String → String → String)
    (message : String) (st : NState) :
    (llmExtractStep llm message st "surface_type").project_details.project_type =
      st.project_details.project_type := by
  unfold llmExtractStep
  cases extract_with_llm llm "surface_type" message with
  | none => rfl
  | some v => simp [update_state_with_extraction]

theorem llmExtractStep_duration (llm : String → String → String)
    (message : String) (st : NState) :
    (llmExtractStep llm message st "duration").project_details.duration_days =
      llmDurationResult llm message st.project_details.duration_days := by
  unfold llmExtractStep llmDurationResult
  cases extract_with_llm llm "duration" message with
  | none => rfl
  | some v => cases h : firstDigitRun v <;> simp [update_state_with_extraction, h]

theorem llmExtractStep_dur_ptype (llm : String → String → String)
    (message : String) (st : NState) :
    (llmExtractStep llm message st "project_type").project_details.duration_days =
      st.project_details.duration_days := by
  unfold llmExtractStep
  cases extract_with_llm llm "project_type" message with
  | none => rfl
  | some v => simp [update_state_with_extraction]

theorem llmExtractStep_dur_location (llm : String → String → String)
    (message : String) (st : NState) :
    (llmExtractStep llm message st "location").project_details.duration_days =
      st.project_details.duration_days := by
  unfold llmExtractStep
  cases extract_with_llm llm "location" message with
  | none => rfl
  | some v => simp [update_state_with_extraction]

theorem llmExtractStep_dur_height (llm : String → String → String)
    (message : String) (st : NState) :
    (llmExtractStep llm message st "height").project_details.duration_days =
      st.project_details.duration_days := by
  unfold llmExtractStep
  cases extract_with_llm llm "height" message with
  | none => rfl
  | some v => cases h : pyFloat v <;> simp [update_state_with_extraction, h]

theorem llmExtractStep_dur_et (llm : String → String → String)
    (message : String) (st : NState) :
    (llmExtractStep llm message st "equipment_type").project_details.duration_days =
      st.project_details.duration_days := by
  unfold llmExtractStep
  cases extract_with_llm llm "equipment_type" message with
  | none => rfl
  | some v => simp [update_state_with_extraction]

theorem llmExtractStep_dur_surface (llm : String → String → String)
    (message : String) (st : NState) :
    (llmExtractStep llm message st "surface_type").project_details.duration_days =
      st.project_details.duration_days := by
  unfold llmExtractStep
  cases extract_with_llm llm "surface_type" message with
  | none => rfl
  | some v => simp [update_state_with_extraction]

theorem extract_info_ptype
    (research : String → String → Option (String × Option String))
    (st : NState) (message : String) :
    (extract_information_from_message research st message).project_details.project_type =
      st.project_details.project_type := by
  simp only [extract_information_from_message]
  repeat' split
  all_goals rfl

theorem extract_info_duration
    (research : String → String → Option (String × Option String))
    (st : NState) (message : String) :
    (extract_information_from_message research st message).project_details.duration_days =
      (match research days_pattern message with
       | some (_, some g1) =>
           (match pyIntOfDigits g1 with
            | some d => some d
            | Option.none => st.project_details.duration_days)
       | _ => st.project_details.duration_days) := by
  simp only [extract_information_from_message]
  repeat' split
  all_goals rfl

/-- C4 (amended): the extraction engine overwrites.  Each pass assigns
every value it extracts unconditionally, so a structured field that
already holds a value before the turn is replaced by a newly extracted
one; and within a turn the regex (pattern) pass runs after the LLM pass,
so at a conflict the last writer — the pattern pass — wins.  Shown here as
exact characterizations of `project_type` and `duration_days` after
`_extract_all_possible_info`. -/
theorem C4_extraction_overwrites (llm : String → String → String)
    (research : String → String → Option (String × Option String))
    (state : NState) (message : String) :
    (extract_all_possible_info llm research state message).project_details.project_type =
      lastWriterProjectType llm message state.project_details.project_type ∧
    (extract_all_possible_info llm research state message).project_details.duration_days =
      lastWriterDuration llm research message state.project_details.duration_days := by
  unfold extract_all_possible_info
  simp only [List.foldl_cons, List.foldl_nil]
  constructor
  · simp only [extract_info_ptype, llmExtractStep_ptype_surface,
      llmExtractStep_ptype_et, llmExtractStep_ptype_height,
      llmExtractStep_ptype_duration, llmExtractStep_ptype_location,
      llmExtractStep_project_type]
  · simp only [extract_info_duration, llmExtractStep_dur_surface,
      llmExtractStep_dur_et, llmExtractStep_dur_height,
      llmExtractStep_duration, llmExtractStep_dur_location,
      llmExtractStep_dur_ptype, lastWriterDuration]

set_option maxRecDepth 100000 in
/-- C4 counterexample: with `project_type` preset to `"limpieza"` the LLM
pass overwrites it to `"mantenimiento"`; and with `duration_days` preset
to 5, the LLM pass writes 10 but the regex pass, which runs second,
overwrites it to 7 — so fields are overwritten and the pattern pass (not
the first writer) wins within the turn. -/
theorem C4_counterexample :
    (extract_all_possible_info cexLlm cexResearch cexPresetState
      "mensaje").project_details.project_type = some "mantenimiento" ∧
    cexPresetState.project_details.project_type = some "limpieza" ∧
    (some "mantenimiento" : Option String) ≠ some "limpieza" ∧
    extract_with_llm cexLlm "duration" "mensaje" = some "10" ∧
    (extract_all_possible_info cexLlm cexResearch cexPresetState
      "mensaje").project_details.duration_days = some 7 ∧
    cexPresetState.project_details.duration_days = some 5 := by
  refine ⟨rfl, rfl, by simp, rfl, rfl, rfl⟩

end RentalAgent
